import Mathlib

/-!
Verification of the rapidsms_textit outbound SMS backends.

Two backend variants are embedded:
* `RapidsmsTextit` — the direct-POST variant (src/rapidsms_textit/outgoing.py):
  builds a flat `{phone, text}` program with HTML-escaped text and POSTs it.
* `Rtextit` — the signed-callback variant (src/rtextit/outgoing.py):
  builds a `{textit: [commands]}` program, signs it and asks the provider
  to call back with the signed token.
-/

set_option maxHeartbeats 1000000

/-- A configuration mapping: an association list of top-level keys to string
values, modelling the Python `config` dict. -/
def ConfigMap : Type := List (String × String)

instance : DecidableEq ConfigMap := by
  unfold ConfigMap
  infer_instance

instance : Membership (String × String) ConfigMap := by
  unfold ConfigMap
  infer_instance

/-- `k in config` in Python: the dict has the key `k`. -/
def ConfigMap.hasKey (cfg : ConfigMap) (k : String) : Bool :=
  (List.any cfg (fun p => p.1 = k))

/-- `config.get(k)`: first value bound to `k`, if any. -/
def ConfigMap.get (cfg : ConfigMap) (k : String) : Option String :=
  (List.find? (fun p => p.1 = k) cfg).map (fun p => p.2)

/-- The outcome of `configure`: either a configured backend state or an
`ImproperlyConfigured` (ConfigurationError) with its message. -/
inductive ConfigureResult where
  | ok (config : ConfigMap) (api_url : Option String)
  | improperlyConfigured (msg : String)
deriving DecidableEq

namespace RapidsmsTextit

/-- Module-level `base_url` of src/rapidsms_textit/outgoing.py. -/
def base_url : String := "https://api.textit.in/api/v1/"

/-- `TextItBackend.configure` of src/rapidsms_textit/outgoing.py.
`config` is `None` (`none`) or a mapping; `kwargs` are the extra keyword
arguments. The checks run in source order: `api_token`, then `number`,
then `self.api_url = self.config.get('api_url', base_url)`, then the
`kwargs` check. No network activity occurs anywhere in `configure`. -/
def configure (config : Option ConfigMap) (kwargs : ConfigMap) : ConfigureResult :=
  let cfg := config.getD []
  if ¬ cfg.hasKey "api_token" then
    .improperlyConfigured "TextIt backend config must set 'api_token'"
  else if ¬ cfg.hasKey "number" then
    .improperlyConfigured "TextIt backend config must set 'number'"
  else
    let api_url := (cfg.get "api_url").getD base_url
    if kwargs ≠ [] then
      .improperlyConfigured "All textit backend config should be within the `config`entry of the backend dictionary"
    else
      .ok cfg (some api_url)

/-- `django.utils.html.escape` on one character: `&`, `<`, `>`, `"` and the
apostrophe are replaced by their HTML entities; the chained `.replace` calls
of the Django source are equivalent to this character-wise expansion because
`&` is replaced first and no later replacement output is re-scanned. -/
def escapeChar (c : Char) : List Char :=
  if c = '&' then "&amp;".data
  else if c = '<' then "&lt;".data
  else if c = '>' then "&gt;".data
  else if c = '"' then "&quot;".data
  else if c = Char.ofNat 39 then ['&', '#', '3', '9', Char.ofNat 59]
  else [c]

/-- `django.utils.html.escape`. -/
def escape (s : String) : String :=
  String.mk (List.flatten (s.data.map escapeChar))

/-- `id.startswith('+')` for a string `id`: its first character is `'+'`. -/
def startsWithPlus (s : String) : Bool :=
  match s.data with
  | [] => false
  | c :: _ => c = '+'

/-- The list-comprehension body of `send`:
`'+{}'.format(id) if not id.startswith('+') else id`. -/
def addPlus (s : String) : String :=
  if ¬ startsWithPlus s then "+" ++ s else s

/-- The identities argument of `send`: a single string or a list of strings. -/
inductive Identities where
  | str (s : String)
  | list (l : List String)
deriving DecidableEq

/-- The `isinstance(identities, basestring)` normalization at the top of
variant 1's `send`: a lone string becomes a one-element list. -/
def normalizeIdentities : Identities → List String
  | .str s => [s]
  | .list l => l

/-- The variant-1 Program: the flat `{'phone': ids, 'text': escape(text)}`
dict posted as the request body. -/
structure ProgramV1 where
  phone : List String
  text : String
deriving DecidableEq

/-- The program-building part of variant 1's `send` (src/rapidsms_textit/
outgoing.py lines 80-87): normalize identities, prefix each with `+` unless
already prefixed, and HTML-escape the text. -/
def send (text : String) (identities : Identities) : ProgramV1 :=
  let ids := (normalizeIdentities identities).map addPlus
  { phone := ids, text := escape text }

end RapidsmsTextit

namespace Rtextit

/-- Module-level `base_url` of src/rtextit/outgoing.py; this variant POSTs
every program to this fixed URL. -/
def base_url : String := "https://api.textit.in/api/v1.json"

/-- `TextItBackend.configure` of src/rtextit/outgoing.py. Identical to the
variant-1 checks except that no `api_url` is ever read or stored: the
checks are `api_token`, then `number`, then the `kwargs` check. -/
def configure (config : Option ConfigMap) (kwargs : ConfigMap) : ConfigureResult :=
  let cfg := config.getD []
  if ¬ cfg.hasKey "api_token" then
    .improperlyConfigured "TextIt backend config must set 'api_token'"
  else if ¬ cfg.hasKey "number" then
    .improperlyConfigured "TextIt backend config must set 'number'"
  else if kwargs ≠ [] then
    .improperlyConfigured "All textit backend config should be within the `config`entry of the backend dictionary"
  else
    .ok cfg none

/-- One TextIt `message` command of variant 2: the dict
`{'message': {'say': {'value': text}, 'to': ..., 'from': ..., 'channel':
'TEXT', 'network': 'SMS'}}` built in `send`. -/
structure TextItCommand where
  sayValue : String
  to_ : String
  from_ : String
  channel : String
  network : String
deriving DecidableEq

/-- A variant-2 TextIt program: the dict `{'textit': commands}`. -/
structure TextItProgram where
  textit : List TextItCommand
deriving DecidableEq

/-- `self.config['number'].replace('-', '')`: every hyphen removed. -/
def stripHyphens (s : String) : String :=
  String.mk (s.data.filter (fun c => c ≠ '-'))

/-- The command appended for one `identity` in `send`'s loop. -/
def mkCommand (text from_ identity : String) : TextItCommand :=
  { sayValue := text, to_ := identity, from_ := from_,
    channel := "TEXT", network := "SMS" }

/-- The identities argument of variant 2's `send`. Unlike variant 1 there is
no `isinstance` normalization: `send` runs `for identity in identities`
directly, and Python iteration over a string yields its one-character
substrings. -/
inductive Identities where
  | str (s : String)
  | list (l : List String)
deriving DecidableEq

/-- What `for identity in identities` iterates over. -/
def iterate : Identities → List String
  | .str s => s.data.map (fun c => String.mk [c])
  | .list l => l

/-- The program-building part of variant 2's `send` (src/rtextit/outgoing.py
lines 112-135). The local `program` is assigned only inside the loop body,
so with an empty iteration it is never bound and the final
`self.execute_textit_program(program)` raises UnboundLocalError before any
signing or network call: this is modelled by returning `none`. -/
def send (number text : String) (identities : Identities) : Option TextItProgram :=
  let from_ := stripHyphens number
  let ids := iterate identities
  if ids = [] then none
  else some { textit := ids.map (mkCommand text from_) }

/-- Serialization of one string field: its length followed by its character
codes. -/
def serializeString (s : String) : List Nat :=
  s.data.length :: s.data.map Char.toNat

/-- Serialization of one `message` command: its five string fields in
source order. -/
def serializeCommand (c : TextItCommand) : List Nat :=
  serializeString c.sayValue ++ serializeString c.to_ ++
    serializeString c.from_ ++ serializeString c.channel ++
    serializeString c.network

/-- Serialization of a whole program: the number of commands followed by
the serialized commands. -/
def serializeProgram (p : TextItProgram) : List Nat :=
  p.textit.length :: List.flatten (p.textit.map serializeCommand)

/-- Inverse of `serializeString`: read a length, then that many character
codes; return the string and the remaining input. -/
def parseField : List Nat → Option (String × List Nat)
  | [] => none
  | n :: rest =>
    if n ≤ rest.length then
      some (String.mk ((rest.take n).map Char.ofNat), rest.drop n)
    else none

/-- Inverse of `serializeCommand`: read five string fields. -/
def parseCommand (l : List Nat) : Option (TextItCommand × List Nat) := do
  let (sayValue, l) ← parseField l
  let (to_, l) ← parseField l
  let (from_, l) ← parseField l
  let (channel, l) ← parseField l
  let (network, l) ← parseField l
  pure ({ sayValue := sayValue, to_ := to_, from_ := from_,
          channel := channel, network := network }, l)

/-- Read `n` serialized commands. -/
def parseCommands : Nat → List Nat → Option (List TextItCommand × List Nat)
  | 0, l => some ([], l)
  | n + 1, l => do
    let (c, l) ← parseCommand l
    let (cs, l) ← parseCommands n l
    pure (c :: cs, l)

/-- Inverse of `serializeProgram`; fails unless the whole input is consumed. -/
def decodeProgram (l : List Nat) : Option TextItProgram :=
  match l with
  | [] => none
  | n :: rest =>
    match parseCommands n rest with
    | some (cs, []) => some { textit := cs }
    | _ => none

/-- Modelled from the spec: the symmetric MAC underlying the signing scheme.
The signing/verification primitive used by `execute_textit_program` is
`django.core.signing` (host-environment code, not under src); per the spec
it is "a symmetric signing scheme keyed by a process-wide secret" that may
be "any authenticated-encoding primitive (e.g., HMAC-signed serialized
payload)". It is modelled as an idealized keyed MAC over the payload bytes,
injective in the payload, so that tamper-evidence is provable. -/
def macBytes (key : Nat) (payload : List Nat) : List Nat :=
  payload.map (fun b => b + key + 1)

/-- Modelled from the spec: `signing.dumps(program)` at src/rtextit/
outgoing.py line 71. Serializes the program and appends an authentication
tag, producing the opaque signed token (a byte list): the payload length,
the payload, then its MAC. -/
def signProgram (key : Nat) (p : TextItProgram) : List Nat :=
  let payload := serializeProgram p
  payload.length :: (payload ++ macBytes key payload)

/-- Modelled from the spec: `signing.loads` on the callback side (the
CallbackVerifier, an external collaborator per the spec). Splits the token
into payload and MAC, rejects unless the MAC recomputed with the shared key
matches exactly, then recovers the structured program from the payload. -/
def verifyProgram (key : Nat) (token : List Nat) : Option TextItProgram :=
  match token with
  | [] => none
  | n :: rest =>
    if rest.length = 2 * n then
      let payload := rest.take n
      let mac := rest.drop n
      if macBytes key payload = mac then decodeProgram payload else none
    else none

/-- The URL `execute_textit_program` POSTs to (src/rtextit/outgoing.py line
86): always the module-level `base_url`, never a configured `api_url`. -/
def execute_url : String := base_url

/-- A JSON response body from TextIt, as read by `execute_textit_program`:
an optional boolean `success` field and an optional string `error` field. -/
structure TextItResponse where
  success : Option Bool
  error : Option String
deriving DecidableEq

/-- The outcome of `execute_textit_program`'s response handling. -/
inductive ExecuteResult where
  | ok
  | httpError (status : Nat)
  | textItError (msg : String)
  | keyError
deriving DecidableEq

/-- The response handling of `execute_textit_program` (src/rtextit/
outgoing.py lines 92-96): `response.raise_for_status()` raises for any
4xx/5xx status; otherwise the JSON body is parsed, a missing `success`
key raises KeyError, a falsy `success` raises
`Exception("TextIt error: %s" % result.get('error', 'unknown'))`, and a
truthy `success` returns normally. -/
def handleResponse (status : Nat) (body : TextItResponse) : ExecuteResult :=
  if 400 ≤ status ∧ status < 600 then .httpError status
  else
    match body.success with
    | none => .keyError
    | some false => .textItError ("TextIt error: " ++ body.error.getD "unknown")
    | some true => .ok

end Rtextit

namespace RapidsmsTextit

/-- A string starting with the literal `+` character starts with a plus. -/
theorem startsWithPlus_plus_append (s : String) :
    startsWithPlus ("+" ++ s) = true := by
  unfold startsWithPlus
  rw [String.data_append]
  rfl

/-- The `+`-prefixing of variant 1's `send` is idempotent. -/
theorem addPlus_idem (s : String) : addPlus (addPlus s) = addPlus s := by
  unfold addPlus
  by_cases hs : startsWithPlus s
  · simp [hs]
  · simp [hs, startsWithPlus_plus_append]

end RapidsmsTextit

/-- C3: every identity in the input list that does not start with `+` appears
in variant 1's output with `+` prepended, at its position; every identity
already starting with `+` appears unchanged; and the prefixing operation is
idempotent. -/
theorem variant1_plus_prefixing (text : String) (identities : List String)
    (i : Nat) (h : i < identities.length) :
    (RapidsmsTextit.startsWithPlus identities[i] = false →
      (RapidsmsTextit.send text (.list identities)).phone[i]? =
        some ("+" ++ identities[i])) ∧
    (RapidsmsTextit.startsWithPlus identities[i] = true →
      (RapidsmsTextit.send text (.list identities)).phone[i]? =
        some identities[i]) ∧
    RapidsmsTextit.addPlus (RapidsmsTextit.addPlus identities[i]) =
      RapidsmsTextit.addPlus identities[i] := by
  have hphone : (RapidsmsTextit.send text (.list identities)).phone =
      identities.map RapidsmsTextit.addPlus := rfl
  have hget : (identities.map RapidsmsTextit.addPlus)[i]? =
      some (RapidsmsTextit.addPlus identities[i]) := by
    simp [List.getElem?_eq_getElem, h]
  refine ⟨fun hs => ?_, fun hs => ?_, RapidsmsTextit.addPlus_idem _⟩
  · rw [hphone, hget]
    simp [RapidsmsTextit.addPlus, hs]
  · rw [hphone, hget]
    simp [RapidsmsTextit.addPlus, hs]

/-- C3 witness. -/
theorem variant1_plus_prefixing_witness :
    (0 < (["1234567", "+7"] : List String).length) ∧
    (RapidsmsTextit.send "hi" (.list ["1234567", "+7"])).phone[0]? =
      some "+1234567" :=
  ⟨by decide,
   (variant1_plus_prefixing "hi" ["1234567", "+7"] 0 (by decide)).1 (by decide)⟩

/-- C4: variant 1 places the HTML-escaped text in the outbound program body
(in particular `"<script>"` becomes `"&lt;script&gt;"`), while variant 2
places the literal unescaped text in each command's say.value field. -/
theorem escaping_asymmetry (text number : String)
    (ids1 : RapidsmsTextit.Identities) (ids2 : Rtextit.Identities)
    (p : Rtextit.TextItProgram) (cmd : Rtextit.TextItCommand)
    (hp : Rtextit.send number text ids2 = some p) (hc : cmd ∈ p.textit) :
    (RapidsmsTextit.send text ids1).text = RapidsmsTextit.escape text ∧
    RapidsmsTextit.escape "<script>" = "&lt;script&gt;" ∧
    cmd.sayValue = text := by
  refine ⟨rfl, by decide, ?_⟩
  unfold Rtextit.send at hp
  by_cases hi : Rtextit.iterate ids2 = []
  · simp [hi] at hp
  · simp [hi] at hp
    rw [← hp] at hc
    simp [Rtextit.mkCommand] at hc
    obtain ⟨id, _, hcmd⟩ := hc
    rw [← hcmd]

/-- C4 witness. -/
theorem escaping_asymmetry_witness :
    Rtextit.send "5" "<script>" (.list ["a"]) =
      some ⟨[Rtextit.mkCommand "<script>" "5" "a"]⟩ ∧
    (RapidsmsTextit.send "<script>" (.list ["a"])).text = "&lt;script&gt;" ∧
    (Rtextit.mkCommand "<script>" "5" "a").sayValue = "<script>" := by
  refine ⟨by decide, ?_, ?_⟩
  · have h := escaping_asymmetry "<script>" "5" (.list ["a"]) (.list ["a"])
      ⟨[Rtextit.mkCommand "<script>" "5" "a"]⟩ (Rtextit.mkCommand "<script>" "5" "a")
      (by decide) (by simp)
    rw [h.1, h.2.1]
  · have h := escaping_asymmetry "<script>" "5" (.list ["a"]) (.list ["a"])
      ⟨[Rtextit.mkCommand "<script>" "5" "a"]⟩ (Rtextit.mkCommand "<script>" "5" "a")
      (by decide) (by simp)
    exact h.2.2

/-- C5: for a non-empty identity list, variant 2's send builds a program with
exactly one message command per identity, in input order, each carrying the
text as say.value, the identity as to, the hyphen-stripped configured number
as from, channel "TEXT" and network "SMS"; in particular the number config
"555-000-1111" yields from "5550001111". -/
theorem variant2_program_shape (number text : String)
    (identities : List String) (h : identities ≠ []) :
    (∃ p, Rtextit.send number text (.list identities) = some p ∧
      p.textit.length = identities.length ∧
      ∀ i (hi : i < identities.length),
        p.textit[i]? = some { sayValue := text, to_ := identities[i],
                              from_ := Rtextit.stripHyphens number,
                              channel := "TEXT", network := "SMS" }) ∧
    Rtextit.stripHyphens "555-000-1111" = "5550001111" := by
  refine ⟨⟨⟨identities.map (Rtextit.mkCommand text (Rtextit.stripHyphens number))⟩,
    ?_, by simp, ?_⟩, by decide⟩
  · simp [Rtextit.send, Rtextit.iterate, h]
  · intro i hi
    simp [List.getElem?_eq_getElem, hi, Rtextit.mkCommand]

/-- C5 witness: the spec's example input. -/
theorem variant2_program_shape_witness :
    (["1234567", "+1234567"] : List String) ≠ [] ∧
    ((∃ p, Rtextit.send "555-000-1111" "msg" (.list ["1234567", "+1234567"]) = some p ∧
      p.textit.length = (["1234567", "+1234567"] : List String).length ∧
      ∀ i (hi : i < (["1234567", "+1234567"] : List String).length),
        p.textit[i]? = some { sayValue := "msg",
                              to_ := (["1234567", "+1234567"] : List String)[i],
                              from_ := Rtextit.stripHyphens "555-000-1111",
                              channel := "TEXT", network := "SMS" }) ∧
    Rtextit.stripHyphens "555-000-1111" = "5550001111") :=
  ⟨by decide,
   variant2_program_shape "555-000-1111" "msg" ["1234567", "+1234567"] (by decide)⟩

/-- C8 counterexample: variant 2's send does not normalize a single string
to a one-element list; on the string "+1" it builds one command per
character, unlike on the list ["+1"]. -/
theorem string_identities_not_normalized :
    Rtextit.send "5" "hi" (.str "+1") ≠ Rtextit.send "5" "hi" (.list ["+1"]) ∧
    Rtextit.send "5" "hi" (.str "+1") =
      some ⟨[Rtextit.mkCommand "hi" "5" "+", Rtextit.mkCommand "hi" "5" "1"]⟩ := by
  constructor
  · decide
  · decide

/-- C8 amended: variant 1 normalizes a single identity string to the
one-element list containing it, so its send on a string equals its send on
the singleton list; variant 2 iterates the identities value directly, so a
string is treated as the list of its one-character substrings. -/
theorem identities_normalization (text number s : String) :
    RapidsmsTextit.send text (.str s) = RapidsmsTextit.send text (.list [s]) ∧
    Rtextit.send number text (.str s) =
      Rtextit.send number text (.list (s.data.map (fun c => String.mk [c]))) := by
  exact ⟨rfl, rfl⟩

/-- C10: variant 2's send with an empty identities list never binds the
local `program` and fails (UnboundLocalError) before signing or dispatch;
a program is produced exactly when the identities list is non-empty. -/
theorem variant2_empty_identities (number text : String)
    (identities : List String) :
    Rtextit.send number text (.list identities) = none ↔ identities = [] := by
  by_cases h : identities = []
  · simp [h, Rtextit.send, Rtextit.iterate]
  · simp [h, Rtextit.send, Rtextit.iterate]

/-- C6: if `api_token` or `number` is absent from the configuration mapping
(including the empty or missing mapping), configure of either variant
raises ImproperlyConfigured (the ConfigurationError); with both keys
present and no extra keyword arguments, configure of either variant
succeeds. Both embedded configure functions are pure: no network activity
occurs in them at all. -/
theorem configure_required_keys (config : Option ConfigMap) (kwargs : ConfigMap) :
    ((config.getD []).hasKey "api_token" = false ∨
        (config.getD []).hasKey "number" = false →
      (∃ m, RapidsmsTextit.configure config kwargs = .improperlyConfigured m) ∧
      ∃ m, Rtextit.configure config kwargs = .improperlyConfigured m) ∧
    ((config.getD []).hasKey "api_token" = true →
      (config.getD []).hasKey "number" = true → kwargs = [] →
      (∃ c u, RapidsmsTextit.configure config kwargs = .ok c u) ∧
      ∃ c u, Rtextit.configure config kwargs = .ok c u) := by
  constructor
  · rintro (h | h)
    · exact ⟨⟨"TextIt backend config must set 'api_token'",
          by simp [RapidsmsTextit.configure, h]⟩,
        ⟨"TextIt backend config must set 'api_token'",
          by simp [Rtextit.configure, h]⟩⟩
    · by_cases ht : (config.getD []).hasKey "api_token" = true
      · exact ⟨⟨"TextIt backend config must set 'number'",
            by simp [RapidsmsTextit.configure, ht, h]⟩,
          ⟨"TextIt backend config must set 'number'",
            by simp [Rtextit.configure, ht, h]⟩⟩
      · rw [Bool.not_eq_true] at ht
        exact ⟨⟨"TextIt backend config must set 'api_token'",
            by simp [RapidsmsTextit.configure, ht]⟩,
          ⟨"TextIt backend config must set 'api_token'",
            by simp [Rtextit.configure, ht]⟩⟩
  · intro ht hn hk
    exact ⟨⟨config.getD [],
        some (((config.getD []).get "api_url").getD RapidsmsTextit.base_url),
        by simp [RapidsmsTextit.configure, ht, hn, hk]⟩,
      ⟨config.getD [], none, by simp [Rtextit.configure, ht, hn, hk]⟩⟩

/-- C6 witness: the empty mapping is rejected by both variants, and a
mapping with both keys and no kwargs is accepted by both. -/
theorem configure_required_keys_witness :
    ((∃ m, RapidsmsTextit.configure (some []) [] = .improperlyConfigured m) ∧
      ∃ m, Rtextit.configure (some []) [] = .improperlyConfigured m) ∧
    ((∃ c u, RapidsmsTextit.configure
        (some [("api_token", "t"), ("number", "n")]) [] = .ok c u) ∧
      ∃ c u, Rtextit.configure
        (some [("api_token", "t"), ("number", "n")]) [] = .ok c u) :=
  ⟨(configure_required_keys (some []) []).1 (Or.inl (by decide)),
   (configure_required_keys (some [("api_token", "t"), ("number", "n")]) []).2
     (by decide) (by decide) rfl⟩

/-- C7 counterexample: a mapping with the extra top-level key "foo" is
accepted by configure of both variants, so validation does not fail on
unexpected top-level keys. -/
theorem configure_extra_key_accepted :
    RapidsmsTextit.configure
        (some [("api_token", "t"), ("number", "n"), ("foo", "bar")]) [] =
      .ok [("api_token", "t"), ("number", "n"), ("foo", "bar")]
        (some RapidsmsTextit.base_url) ∧
    Rtextit.configure
        (some [("api_token", "t"), ("number", "n"), ("foo", "bar")]) [] =
      .ok [("api_token", "t"), ("number", "n"), ("foo", "bar")] none := by
  constructor
  · decide
  · decide

/-- C7 amended: configure never inspects top-level keys other than
`api_token` and `number` (and, in variant 1, `api_url`): a mapping
containing both required keys is accepted whatever other keys it contains;
what configure rejects besides missing required keys is extra keyword
arguments outside the mapping. -/
theorem configure_extra_kwargs_rejected (config : Option ConfigMap)
    (kwargs : ConfigMap) :
    (kwargs ≠ [] →
      (∃ m, RapidsmsTextit.configure config kwargs = .improperlyConfigured m) ∧
      ∃ m, Rtextit.configure config kwargs = .improperlyConfigured m) ∧
    ((config.getD []).hasKey "api_token" = true →
      (config.getD []).hasKey "number" = true → kwargs = [] →
      RapidsmsTextit.configure config kwargs =
        .ok (config.getD [])
          (some (((config.getD []).get "api_url").getD RapidsmsTextit.base_url)) ∧
      Rtextit.configure config kwargs = .ok (config.getD []) none) := by
  constructor
  · intro hk
    by_cases ht : (config.getD []).hasKey "api_token" = true
    · by_cases hn : (config.getD []).hasKey "number" = true
      · refine ⟨⟨"All textit backend config should be within the `config`entry of the backend dictionary", ?_⟩,
          ⟨"All textit backend config should be within the `config`entry of the backend dictionary", ?_⟩⟩
        · simp [RapidsmsTextit.configure, ht, hn, hk]
        · simp [Rtextit.configure, ht, hn, hk]
      · rw [Bool.not_eq_true] at hn
        exact ⟨⟨"TextIt backend config must set 'number'",
            by simp [RapidsmsTextit.configure, ht, hn]⟩,
          ⟨"TextIt backend config must set 'number'",
            by simp [Rtextit.configure, ht, hn]⟩⟩
    · rw [Bool.not_eq_true] at ht
      exact ⟨⟨"TextIt backend config must set 'api_token'",
          by simp [RapidsmsTextit.configure, ht]⟩,
        ⟨"TextIt backend config must set 'api_token'",
          by simp [Rtextit.configure, ht]⟩⟩
  · intro ht hn hk
    exact ⟨by simp [RapidsmsTextit.configure, ht, hn, hk],
      by simp [Rtextit.configure, ht, hn, hk]⟩

/-- C7 amended witness. -/
theorem configure_extra_kwargs_rejected_witness :
    ((∃ m, RapidsmsTextit.configure
        (some [("api_token", "t"), ("number", "n")]) [("foo", "bar")] =
          .improperlyConfigured m) ∧
      ∃ m, Rtextit.configure
        (some [("api_token", "t"), ("number", "n")]) [("foo", "bar")] =
          .improperlyConfigured m) ∧
    (RapidsmsTextit.configure
        (some [("api_token", "t"), ("number", "n"), ("foo", "bar")]) [] =
      .ok [("api_token", "t"), ("number", "n"), ("foo", "bar")]
        (some ((ConfigMap.get [("api_token", "t"), ("number", "n"), ("foo", "bar")]
          "api_url").getD RapidsmsTextit.base_url)) ∧
      Rtextit.configure
        (some [("api_token", "t"), ("number", "n"), ("foo", "bar")]) [] =
      .ok [("api_token", "t"), ("number", "n"), ("foo", "bar")] none) :=
  ⟨(configure_extra_kwargs_rejected
      (some [("api_token", "t"), ("number", "n")]) [("foo", "bar")]).1
        (by decide),
   (configure_extra_kwargs_rejected
      (some [("api_token", "t"), ("number", "n"), ("foo", "bar")]) []).2
        (by decide) (by decide) rfl⟩

/-- C9 counterexample: variant 2's configure stores the mapping but derives
no api_url even when the optional `api_url` key is present, and its
dispatch URL is the fixed base URL, not the configured override. -/
theorem variant2_api_url_ignored :
    Rtextit.configure
        (some [("api_token", "t"), ("number", "n"),
               ("api_url", "http://example.com/")]) [] =
      .ok [("api_token", "t"), ("number", "n"),
           ("api_url", "http://example.com/")] none ∧
    Rtextit.execute_url = "https://api.textit.in/api/v1.json" ∧
    Rtextit.execute_url ≠ "http://example.com/" := by
  refine ⟨by decide, by decide, by decide⟩

/-- C9 amended: a successful configure of either variant stores the
validated mapping; variant 1 additionally derives the api_url used for
dispatch — the config's `api_url` value when present, its fixed default
base URL otherwise — while variant 2 derives no api_url and always
dispatches to its fixed base URL, ignoring any `api_url` key. -/
theorem configure_stores_and_derives_url (config : Option ConfigMap)
    (kwargs : ConfigMap)
    (ht : (config.getD []).hasKey "api_token" = true)
    (hn : (config.getD []).hasKey "number" = true)
    (hk : kwargs = []) :
    RapidsmsTextit.configure config kwargs =
      .ok (config.getD [])
        (some (((config.getD []).get "api_url").getD RapidsmsTextit.base_url)) ∧
    (∀ u, (config.getD []).get "api_url" = some u →
      RapidsmsTextit.configure config kwargs = .ok (config.getD []) (some u)) ∧
    ((config.getD []).get "api_url" = none →
      RapidsmsTextit.configure config kwargs =
        .ok (config.getD []) (some RapidsmsTextit.base_url)) ∧
    Rtextit.configure config kwargs = .ok (config.getD []) none ∧
    Rtextit.execute_url = Rtextit.base_url := by
  refine ⟨by simp [RapidsmsTextit.configure, ht, hn, hk], ?_, ?_,
    by simp [Rtextit.configure, ht, hn, hk], rfl⟩
  · intro u hu
    simp [RapidsmsTextit.configure, ht, hn, hk, hu]
  · intro hu
    simp [RapidsmsTextit.configure, ht, hn, hk, hu]

/-- C9 amended witness: an `api_url` override is honored by variant 1. -/
theorem configure_stores_and_derives_url_witness :
    RapidsmsTextit.configure
        (some [("api_token", "t"), ("number", "n"),
               ("api_url", "http://example.com/")]) [] =
      .ok [("api_token", "t"), ("number", "n"),
           ("api_url", "http://example.com/")]
        (some ((ConfigMap.get [("api_token", "t"), ("number", "n"),
           ("api_url", "http://example.com/")] "api_url").getD
             RapidsmsTextit.base_url)) :=
  (configure_stores_and_derives_url
    (some [("api_token", "t"), ("number", "n"),
           ("api_url", "http://example.com/")]) []
    (by decide) (by decide) rfl).1

/-- C2: in variant 2's execute, on a 2xx HTTP status the JSON body is
parsed; a falsy `success` field raises the TextIt error carrying the
body's `error` field (or "unknown" when absent), and a truthy `success`
returns without error. -/
theorem execute_response_handling (status : Nat) (body : Rtextit.TextItResponse)
    (h2 : 200 ≤ status) (h3 : status < 300) :
    (body.success = some false →
      Rtextit.handleResponse status body =
        .textItError ("TextIt error: " ++ body.error.getD "unknown")) ∧
    (body.success = some true → Rtextit.handleResponse status body = .ok) := by
  constructor
  · intro hs
    simp [Rtextit.handleResponse, hs]
    omega
  · intro hs
    simp [Rtextit.handleResponse, hs]
    omega

/-- C2 witness: the spec's example — HTTP 200 with body
`{"success": false, "error": "bad token"}` raises the provider error
carrying "bad token". -/
theorem execute_response_handling_witness :
    Rtextit.handleResponse 200 ⟨some false, some "bad token"⟩ =
      .textItError "TextIt error: bad token" := by
  have h := (execute_response_handling 200 ⟨some false, some "bad token"⟩
    (by decide) (by decide)).1 rfl
  simpa using h

namespace Rtextit

/-- The MAC preserves the payload length. -/
theorem macBytes_length (key : Nat) (payload : List Nat) :
    (macBytes key payload).length = payload.length :=
  List.length_map _ _

/-- The idealized MAC is injective in the payload. -/
theorem macBytes_injective (key : Nat) : Function.Injective (macBytes key) :=
  List.map_injective_iff.mpr (fun a b hab => by omega)

/-- Parsing undoes string-field serialization, leaving the rest intact. -/
theorem parseField_serializeString (s : String) (r : List Nat) :
    parseField (serializeString s ++ r) = some (s, r) := by
  show parseField (s.data.length :: (s.data.map Char.toNat ++ r)) = some (s, r)
  simp only [parseField]
  rw [if_pos (by simp)]
  rw [List.take_left' (by simp), List.drop_left' (by simp), List.map_map]
  have hmap : s.data.map (Char.ofNat ∘ Char.toNat) = s.data := by
    simp [Function.comp_def, Char.ofNat_toNat]
  rw [hmap]

/-- Parsing undoes command serialization, leaving the rest intact. -/
theorem parseCommand_serializeCommand (c : TextItCommand) (r : List Nat) :
    parseCommand (serializeCommand c ++ r) = some (c, r) := by
  unfold parseCommand serializeCommand
  simp [List.append_assoc, parseField_serializeString]

/-- Parsing undoes the serialization of a command list. -/
theorem parseCommands_serialize (cs : List TextItCommand) (r : List Nat) :
    parseCommands cs.length (List.flatten (cs.map serializeCommand) ++ r) =
      some (cs, r) := by
  induction cs generalizing r with
  | nil => simp [parseCommands]
  | cons c cs ih =>
    simp [parseCommands, List.append_assoc, parseCommand_serializeCommand, ih]

/-- Decoding undoes program serialization. -/
theorem decodeProgram_serializeProgram (p : TextItProgram) :
    decodeProgram (serializeProgram p) = some p := by
  show (match serializeProgram p with
    | [] => none
    | n :: rest =>
      match parseCommands n rest with
      | some (cs, []) => some { textit := cs }
      | _ => none) = some p
  show (match parseCommands p.textit.length
      (List.flatten (p.textit.map serializeCommand)) with
    | some (cs, []) => some ({ textit := cs } : TextItProgram)
    | _ => none) = some p
  have h := parseCommands_serialize p.textit []
  rw [List.append_nil] at h
  rw [h]

end Rtextit

namespace Rtextit

/-- Overwriting position `j` with a different value changes the list. -/
theorem set_ne_of_ne (l : List Nat) (j b : Nat) (hj : j < l.length)
    (hb : b ≠ l.get ⟨j, hj⟩) : l.set j b ≠ l := by
  intro heq
  apply hb
  have hjs : j < (l.set j b).length := by simpa using hj
  have h1 : (l.set j b)[j] = b :=
    List.getElem_set_self (by simpa using hj)
  simp only [heq] at h1
  rw [List.get_eq_getElem]
  exact h1.symm

end Rtextit

/-- C1: verification recovers exactly the program that was signed, and any
single-byte mutation of the signed token — in its length prefix, its
payload bytes or its signature bytes — makes verification fail. -/
theorem variant2_sign_verify (key : Nat) (p : Rtextit.TextItProgram) :
    Rtextit.verifyProgram key (Rtextit.signProgram key p) = some p ∧
    ∀ (i b : Nat) (h : i < (Rtextit.signProgram key p).length),
      b ≠ (Rtextit.signProgram key p).get ⟨i, h⟩ →
      Rtextit.verifyProgram key ((Rtextit.signProgram key p).set i b) = none := by
  constructor
  · show Rtextit.verifyProgram key
      ((Rtextit.serializeProgram p).length ::
        (Rtextit.serializeProgram p ++
          Rtextit.macBytes key (Rtextit.serializeProgram p))) = some p
    simp only [Rtextit.verifyProgram]
    rw [if_pos (by simp [List.length_append, Rtextit.macBytes_length]; omega)]
    rw [List.take_left, List.drop_left]
    rw [if_pos rfl]
    exact Rtextit.decodeProgram_serializeProgram p
  · intro i b h hb
    cases i with
    | zero =>
      have hset : (Rtextit.signProgram key p).set 0 b =
          b :: (Rtextit.serializeProgram p ++
            Rtextit.macBytes key (Rtextit.serializeProgram p)) := rfl
      have hget : (Rtextit.signProgram key p).get ⟨0, h⟩ =
          (Rtextit.serializeProgram p).length := rfl
      rw [hget] at hb
      rw [hset]
      simp only [Rtextit.verifyProgram]
      rw [if_neg (by simp [List.length_append, Rtextit.macBytes_length]; omega)]
    | succ j =>
      have hj2 : j < (Rtextit.serializeProgram p ++
          Rtextit.macBytes key (Rtextit.serializeProgram p)).length := by
        have h' : j + 1 < (Rtextit.serializeProgram p ++
            Rtextit.macBytes key (Rtextit.serializeProgram p)).length + 1 := h
        omega
      have hset : (Rtextit.signProgram key p).set (j + 1) b =
          (Rtextit.serializeProgram p).length ::
            (Rtextit.serializeProgram p ++
              Rtextit.macBytes key (Rtextit.serializeProgram p)).set j b := rfl
      have hget : (Rtextit.signProgram key p).get ⟨j + 1, h⟩ =
          (Rtextit.serializeProgram p ++
            Rtextit.macBytes key (Rtextit.serializeProgram p)).get ⟨j, hj2⟩ := rfl
      rw [hget] at hb
      rw [hset]
      simp only [Rtextit.verifyProgram]
      rw [if_pos (by
        rw [List.length_set]
        simp [List.length_append, Rtextit.macBytes_length]
        omega)]
      by_cases hj : j < (Rtextit.serializeProgram p).length
      · rw [List.set_append_left _ _ hj]
        rw [List.take_left' (by simp [List.length_set]),
          List.drop_left' (by simp [List.length_set])]
        rw [if_neg]
        have hbj : b ≠ (Rtextit.serializeProgram p).get ⟨j, hj⟩ := by
          intro hcontra
          apply hb
          rw [List.get_eq_getElem, List.getElem_append_left hj]
          exact hcontra
        have hpb : (Rtextit.serializeProgram p).set j b ≠
            Rtextit.serializeProgram p :=
          Rtextit.set_ne_of_ne _ j b hj hbj
        exact fun hmac => hpb (Rtextit.macBytes_injective key hmac)
      · have hjn : (Rtextit.serializeProgram p).length ≤ j := by omega
        rw [List.set_append_right _ _ hjn]
        rw [List.take_left, List.drop_left]
        rw [if_neg]
        have hjm : j - (Rtextit.serializeProgram p).length <
            (Rtextit.macBytes key (Rtextit.serializeProgram p)).length := by
          rw [Rtextit.macBytes_length]
          rw [List.length_append, Rtextit.macBytes_length] at hj2
          omega
        have hbj : b ≠ (Rtextit.macBytes key (Rtextit.serializeProgram p)).get
            ⟨j - (Rtextit.serializeProgram p).length, hjm⟩ := by
          intro hcontra
          apply hb
          rw [List.get_eq_getElem, List.getElem_append_right hjn]
          exact hcontra
        have hpb : (Rtextit.macBytes key (Rtextit.serializeProgram p)).set
            (j - (Rtextit.serializeProgram p).length) b ≠
            Rtextit.macBytes key (Rtextit.serializeProgram p) :=
          Rtextit.set_ne_of_ne _ _ b hjm hbj
        exact fun hmac => hpb hmac.symm

/-- C1 witness: signing the empty program with key 1 yields the token
[1, 0, 2]; verification recovers the program, and the head mutation to 0
is rejected. -/
theorem variant2_sign_verify_witness :
    Rtextit.verifyProgram 1 (Rtextit.signProgram 1 ⟨[]⟩) = some ⟨[]⟩ ∧
    Rtextit.verifyProgram 1 ((Rtextit.signProgram 1 ⟨[]⟩).set 0 0) = none :=
  ⟨(variant2_sign_verify 1 ⟨[]⟩).1,
   (variant2_sign_verify 1 ⟨[]⟩).2 0 0 (by decide) (by decide)⟩
